import Mathlib

/-!
Verification of the client session and credential lifecycle of the
user-management frontend in this repository.

The repository carries two parallel client implementations of the session
core:

* a Redux implementation: frontend/src/store/authSlice.js (state and
  reducers) together with frontend/src/services/api.js (request and
  response interceptors); it persists only the token entry;
* a React-context implementation: AuthContext and useAuth
  (frontend/src/hooks/useAuth.js) together with a second api module
  (src/unnamed/part_003); it persists both the token entry and the user
  entry, under the localStorage keys AUTH_TOKEN_KEY = "token" and
  USER_DATA_KEY = "user" from constants.js.

Both are embedded below as pure state-transition functions.  localStorage
is modelled by SessionStore; since JSON.parse after JSON.stringify is the
identity on the plain string-valued records at hand, the user entry
carries the record it encodes.  Toast messages, console output and page
navigation are not part of the session state and are not modelled.
-/

namespace ChopWeb

/-- JavaScript object with string-valued fields, as an assignment list:
later entries override earlier ones. -/
abbrev Obj := List (String × String)

/-- Property lookup: the last assignment to a key wins. -/
def Obj.get (o : Obj) (q : String) : Option String :=
  (List.find? (fun kv => kv.1 == q) o.reverse).map (fun kv => kv.2)

/-- JS object spread: in a literal spreading a and then b, the fields of b
override the fields of a. -/
def Obj.spread (a b : Obj) : Obj := a ++ b

/-- JS property assignment, obj[k] = v. -/
def Obj.assign (o : Obj) (k v : String) : Obj := o ++ [(k, v)]

/-- JS truthiness of a nullable string (null and the empty string are
falsy): the check the sources write as if (token), and the coercion they
write as !!token. -/
def jsTruthy : Option String → Bool
  | none => false
  | some s => s != ""

/-- A user record as the client caches it: the top-level fields together
with the nested profile object (useAuth.updateProfile merges into
user.profile). -/
structure UserRec where
  fields : Obj
  profile : Obj
deriving Repr, DecidableEq

/-- The persisted Session Store: the two localStorage entries, key "token"
(AUTH_TOKEN_KEY) and key "user" (USER_DATA_KEY).  The user entry holds the
JSON-serialised record and is carried here as the record itself. -/
structure SessionStore where
  tokenEntry : Option String
  userEntry : Option UserRec
deriving Repr, DecidableEq

/-- In-memory state of AuthProvider (src/unnamed part of useAuth.js): the
token and user React state cells. -/
structure CtxState where
  token : Option String
  user : Option UserRec
deriving Repr, DecidableEq

/-- Outcome of an awaited getCurrentUser call: the resolved record, or a
rejection (any thrown error: an HTTP failure status or a network
error). -/
inductive FetchOutcome where
  | success (u : UserRec)
  | failure
deriving Repr, DecidableEq

namespace AuthContext

/-- Initial useState values of AuthProvider: the token read from storage,
and the user parsed from the saved entry when that entry is present
(savedUser is truthy: JSON.stringify of a record is never empty). -/
def load (st : SessionStore) : CtxState :=
  { token := st.tokenEntry
    user := match st.userEntry with
            | some u => some u
            | none => none }

/-- AuthContext.updateUserData: persists and sets the user only when the
argument is truthy; a null argument is silently ignored. -/
def updateUserData (s : CtxState) (st : SessionStore) (userData : Option UserRec) :
    CtxState × SessionStore :=
  match userData with
  | some u => ({ s with user := some u }, { st with userEntry := some u })
  | none => (s, st)

/-- AuthContext.initializeAuth: when the token is truthy the user is
re-fetched; on success it is stored via updateUserData, on failure both
localStorage entries are removed and both state cells are reset through
the raw setters. -/
def initializeAuth (s : CtxState) (st : SessionStore) (o : FetchOutcome) :
    CtxState × SessionStore :=
  if jsTruthy s.token then
    match o with
    | .success u => updateUserData s st (some u)
    | .failure =>
        ({ token := none, user := none }, { tokenEntry := none, userEntry := none })
  else (s, st)

end AuthContext

namespace UseAuth

/-- useAuth login(newToken, userData): writes both storage entries, sets
the token cell, then passes the user through the context setter, which is
AuthContext.updateUserData. -/
def login (s : CtxState) (st : SessionStore) (newToken : String) (userData : UserRec) :
    CtxState × SessionStore :=
  let st1 := { st with tokenEntry := some newToken }
  let st2 := { st1 with userEntry := some userData }
  let s1 := { s with token := some newToken }
  AuthContext.updateUserData s1 st2 (some userData)

/-- useAuth logout(): removes both storage entries, sets the token cell to
null, then calls the context setter with null — which is
AuthContext.updateUserData and ignores a null argument. -/
def logout (s : CtxState) (st : SessionStore) : CtxState × SessionStore :=
  let st1 := { st with tokenEntry := none }
  let st2 := { st1 with userEntry := none }
  let s1 := { s with token := none }
  AuthContext.updateUserData s1 st2 none

/-- useAuth updateProfile(profileData): when a user is cached, first an
optimistic local merge into user.profile is stored, then the canonical
record is re-fetched; on fetch success the fetched record is stored
wholesale, on fetch failure the error is only logged. -/
def updateProfile (s : CtxState) (st : SessionStore) (profileData : Obj) (o : FetchOutcome) :
    CtxState × SessionStore :=
  match s.user with
  | some u =>
      let updatedUser : UserRec := { fields := u.fields, profile := Obj.spread u.profile profileData }
      let r1 := AuthContext.updateUserData s st (some updatedUser)
      match o with
      | .success fresh => AuthContext.updateUserData r1.1 r1.2 (some fresh)
      | .failure => r1
  | none => (s, st)

/-- useAuth refreshUserData(): on fetch success stores and returns the
fetched record; a thrown error is caught, logged, and null is returned as
the value of the call — the promise resolves in both branches, so the
error channel of the Except is never used. -/
def refreshUserData (s : CtxState) (st : SessionStore) (o : FetchOutcome) :
    (CtxState × SessionStore) × Except Unit (Option UserRec) :=
  match o with
  | .success userData =>
      let r1 := AuthContext.updateUserData s st (some userData)
      (r1, Except.ok (some userData))
  | .failure => ((s, st), Except.ok none)

end UseAuth

/-- Failure seen by an axios response interceptor: a response carrying an
HTTP status (error.response, with an optional detail body), a transport
failure with no response (error.request), or a setup error (neither). -/
inductive ApiError where
  | response (status : Nat) (detail : Option String)
  | transport
  | setup
deriving Repr, DecidableEq

namespace CtxApi

/-- Response interceptor of the second api module (src/unnamed/part_003):
on status 401 it removes the token entry (and redirects to the login
page); every other branch only raises a toast or logs. -/
def onResponseError (st : SessionStore) (e : ApiError) : SessionStore :=
  match e with
  | .response status _ =>
      if status = 401 then { st with tokenEntry := none } else st
  | .transport => st
  | .setup => st

end CtxApi

/-- Redux auth slice state (frontend/src/store/authSlice.js). -/
structure AuthState where
  user : Option Obj
  token : Option String
  isAuthenticated : Bool
deriving Repr, DecidableEq

namespace AuthSlice

/-- authSlice initialState, computed from persisted storage at module
load: the user starts null even when a token entry is persisted. -/
def initialState (st : SessionStore) : AuthState :=
  { user := none, token := st.tokenEntry, isAuthenticated := jsTruthy st.tokenEntry }

/-- Payload of the loginUser action: the data object returned by the auth
endpoint, carrying a user and a token. -/
structure LoginPayload where
  user : Obj
  token : String
deriving Repr, DecidableEq

/-- Reducer loginUser: sets user, token and isAuthenticated, and persists
the token entry (only the token entry). -/
def loginUser (s : AuthState) (st : SessionStore) (a : LoginPayload) :
    AuthState × SessionStore :=
  ({ s with user := some a.user, token := some a.token, isAuthenticated := true },
   { st with tokenEntry := some a.token })

/-- Reducer logoutUser: clears user, token and isAuthenticated, and
removes the token entry from storage. -/
def logoutUser (s : AuthState) (st : SessionStore) : AuthState × SessionStore :=
  ({ s with user := none, token := none, isAuthenticated := false },
   { st with tokenEntry := none })

/-- Reducer updateUser: merges the action payload over the cached user
object (spread of a null user contributes nothing); no storage access. -/
def updateUser (s : AuthState) (st : SessionStore) (payload : Obj) :
    AuthState × SessionStore :=
  ({ s with user := some (Obj.spread (s.user.getD []) payload) }, st)

end AuthSlice

namespace ReduxApi

/-- Response interceptor of frontend/src/services/api.js: on status 401 it
dispatches logoutUser; the 403, 404, 429 and default branches, the
transport branch and the setup branch only raise toasts. -/
def onResponseError (s : AuthState) (st : SessionStore) (e : ApiError) :
    AuthState × SessionStore :=
  match e with
  | .response status _ =>
      if status = 401 then AuthSlice.logoutUser s st else (s, st)
  | .transport => (s, st)
  | .setup => (s, st)

end ReduxApi

/-- An outbound request configuration: its headers object. -/
structure ReqConfig where
  headers : Obj
deriving Repr, DecidableEq

/-- The request interceptor of both api modules (reading the token from
the redux state in services/api.js and from localStorage in the second
api module): when the token is truthy the Authorization header is
assigned the bearer string, otherwise the config passes through
untouched.  A pure function on the config: no network activity. -/
def attachAuthHeader (token : Option String) (config : ReqConfig) : ReqConfig :=
  match token with
  | some t =>
      if t = "" then config
      else { config with headers := Obj.assign config.headers "Authorization" ("Bearer " ++ t) }
  | none => config

/-- Invariant of the data model: a truthy (present, non-empty) token never
coexists with an absent user snapshot, outside initialization. -/
def steadyInvCtx (s : CtxState) : Prop := jsTruthy s.token = true → s.user ≠ none

/-- The same invariant over the redux slice state. -/
def steadyInvRedux (s : AuthState) : Prop := jsTruthy s.token = true → s.user ≠ none

/-- States of the context implementation reachable once initialization
(AuthProvider mount plus initializeAuth) has completed, closed under the
session lifecycle operations and the response interceptor. -/
inductive CtxReachable : CtxState × SessionStore → Prop where
  | boot (st : SessionStore) (o : FetchOutcome) :
      CtxReachable (AuthContext.initializeAuth (AuthContext.load st) st o)
  | doLogin (p : CtxState × SessionStore) (t : String) (u : UserRec) :
      CtxReachable p → CtxReachable (UseAuth.login p.1 p.2 t u)
  | doLogout (p : CtxState × SessionStore) :
      CtxReachable p → CtxReachable (UseAuth.logout p.1 p.2)
  | doUpdate (p : CtxState × SessionStore) (d : Obj) (o : FetchOutcome) :
      CtxReachable p → CtxReachable (UseAuth.updateProfile p.1 p.2 d o)
  | doRefresh (p : CtxState × SessionStore) (o : FetchOutcome) :
      CtxReachable p → CtxReachable (UseAuth.refreshUserData p.1 p.2 o).1
  | onError (p : CtxState × SessionStore) (e : ApiError) :
      CtxReachable p → CtxReachable (p.1, CtxApi.onResponseError p.2 e)

/-- Redux slice states after at least one reducer action has been applied
(post-initialization: the module-load initialState is the documented
transient), closed under the reducers and the response interceptor. -/
inductive ReduxSteady : AuthState × SessionStore → Prop where
  | didLogin (s : AuthState) (st : SessionStore) (a : AuthSlice.LoginPayload) :
      ReduxSteady (AuthSlice.loginUser s st a)
  | didLogout (s : AuthState) (st : SessionStore) :
      ReduxSteady (AuthSlice.logoutUser s st)
  | didUpdate (s : AuthState) (st : SessionStore) (payload : Obj) :
      ReduxSteady (AuthSlice.updateUser s st payload)
  | onError (p : AuthState × SessionStore) (e : ApiError) :
      ReduxSteady p → ReduxSteady (ReduxApi.onResponseError p.1 p.2 e)

/-- Sample user record with a profile holding two fields. -/
def uA : UserRec := { fields := [("email", "a@b.c"), ("id", "1")], profile := [("bio", "old"), ("city", "x")] }

/-- Sample canonical record as the server would return it after an update:
the bio normalized, the city field dropped. -/
def uB : UserRec := { fields := [("email", "a@b.c"), ("id", "1")], profile := [("bio", "new")] }

/-- C2: Session Store commit followed by load returns exactly the
committed token and user, and clear followed by load returns absent and
absent — commit is the persistence performed by useAuth login, clear the
removal performed by useAuth logout, load the AuthProvider initial
state. -/
theorem c2_commit_load_roundtrip (s : CtxState) (st : SessionStore) (t : String) (u : UserRec) :
    AuthContext.load (UseAuth.login s st t u).2 = { token := some t, user := some u } ∧
    AuthContext.load (UseAuth.logout s st).2 = { token := none, user := none } := by
  constructor
  · simp [AuthContext.load, UseAuth.login, AuthContext.updateUserData]
  · simp [AuthContext.load, UseAuth.logout, AuthContext.updateUserData]

/-- C7: a response with status 422 leaves the session state, the redux
authentication flags and the persisted entries exactly unchanged, in both
implementations (the interceptors act only at status 401). -/
theorem c7_422_preserves_session (s : AuthState) (st : SessionStore) (d : Option String) :
    ReduxApi.onResponseError s st (ApiError.response 422 d) = (s, st) ∧
    CtxApi.onResponseError st (ApiError.response 422 d) = st := by
  constructor
  · simp [ReduxApi.onResponseError]
  · simp [CtxApi.onResponseError]

/-- C9: the updateUser reducer changes only the cached user field: the
token, the isAuthenticated flag and the persisted storage (in particular
the token entry) are untouched for every state and payload. -/
theorem c9_updateUser_frame (s : AuthState) (st : SessionStore) (p : Obj) :
    (AuthSlice.updateUser s st p).1.token = s.token ∧
    (AuthSlice.updateUser s st p).1.isAuthenticated = s.isAuthenticated ∧
    (AuthSlice.updateUser s st p).2 = st := by
  refine ⟨rfl, rfl, rfl⟩

/-- C1: evaluated at a session that is Authenticated (token present, user
record persisted), the 401 branch of the second api module removes the
token entry but leaves the user entry in persisted storage — the Session
Store is not empty afterwards, contradicting the claim that both entries
are absent. -/
theorem c1_401_leaves_user_entry_persisted :
    CtxApi.onResponseError { tokenEntry := some "t1", userEntry := some uA }
      (ApiError.response 401 none)
      = { tokenEntry := none, userEntry := some uA } ∧
    (AuthContext.load (CtxApi.onResponseError { tokenEntry := some "t1", userEntry := some uA }
      (ApiError.response 401 none))).token = none := by
  constructor
  · rfl
  · rfl

/-- C4: after a profile update whose re-fetch of the canonical record
succeeds, the cached user snapshot and the persisted user entry equal
exactly the record the server returned, for every previous snapshot and
every partial payload — wholesale replacement, not a field-wise merge. -/
theorem c4_profile_update_replaces_snapshot (s : CtxState) (st : SessionStore)
    (p : Obj) (r u : UserRec) (h : s.user = some u) :
    (UseAuth.updateProfile s st p (FetchOutcome.success r)).1.user = some r ∧
    (UseAuth.updateProfile s st p (FetchOutcome.success r)).2.userEntry = some r := by
  constructor
  · simp [UseAuth.updateProfile, h, AuthContext.updateUserData]
  · simp [UseAuth.updateProfile, h, AuthContext.updateUserData]

/-- Witness for C4 at a concrete snapshot, payload and returned record;
here the returned record uB even differs from the field-wise merge of the
old snapshot with the payload, so replacement is observable. -/
theorem c4_profile_update_replaces_snapshot_witness :
    (UseAuth.updateProfile { token := some "t1", user := some uA }
        { tokenEntry := some "t1", userEntry := some uA }
        [("bio", "new")] (FetchOutcome.success uB)).1.user = some uB ∧
    (UseAuth.updateProfile { token := some "t1", user := some uA }
        { tokenEntry := some "t1", userEntry := some uA }
        [("bio", "new")] (FetchOutcome.success uB)).2.userEntry = some uB :=
  c4_profile_update_replaces_snapshot { token := some "t1", user := some uA }
    { tokenEntry := some "t1", userEntry := some uA }
    [("bio", "new")] uB uA rfl

/-- C5 counterexample: the claim states that refresh, when the fetch
fails, fails (with Unauthorized) rather than returning a non-record
success value; but refreshUserData catches the error and resolves with
null, so the claimed statement is false. -/
theorem c5_refresh_failure_counterexample :
    ¬ (∀ (s : CtxState) (st : SessionStore),
        ((UseAuth.refreshUserData s st FetchOutcome.failure).2).isOk = false) := by
  intro h
  have h2 := h { token := some "t1", user := some uA }
    { tokenEntry := some "t1", userEntry := some uA }
  simp [UseAuth.refreshUserData, Except.isOk, Except.toBool] at h2

/-- C5 amended: refresh returns the re-fetched canonical record (and
stores it) when the fetch succeeds; when the fetch fails it does not fail:
the error is swallowed and null is returned as the success value, with the
session state and the storage unchanged. -/
theorem c5_refresh_returns_null_on_failure (s : CtxState) (st : SessionStore) :
    UseAuth.refreshUserData s st FetchOutcome.failure = ((s, st), Except.ok none) ∧
    ∀ u : UserRec,
      (UseAuth.refreshUserData s st (FetchOutcome.success u)).2 = Except.ok (some u) ∧
      (UseAuth.refreshUserData s st (FetchOutcome.success u)).1.1.user = some u := by
  refine ⟨rfl, fun u => ⟨rfl, rfl⟩⟩

/-- C6: a transport failure (no HTTP response) or a setup error leaves the
session state and the persisted entries unchanged in both implementations,
and among responses carrying a status only 401 changes anything. -/
theorem c6_only_401_invalidates (s : AuthState) (st : SessionStore) :
    ReduxApi.onResponseError s st ApiError.transport = (s, st) ∧
    ReduxApi.onResponseError s st ApiError.setup = (s, st) ∧
    CtxApi.onResponseError st ApiError.transport = st ∧
    CtxApi.onResponseError st ApiError.setup = st ∧
    ∀ (n : Nat) (d : Option String), n ≠ 401 →
      ReduxApi.onResponseError s st (ApiError.response n d) = (s, st) ∧
      CtxApi.onResponseError st (ApiError.response n d) = st := by
  refine ⟨rfl, rfl, rfl, rfl, fun n d hn => ?_⟩
  constructor
  · simp [ReduxApi.onResponseError, hn]
  · simp [CtxApi.onResponseError, hn]

/-- Witness for C6 at a concrete authenticated state and a concrete
non-401 status. -/
theorem c6_only_401_invalidates_witness :
    ReduxApi.onResponseError { user := some [("id", "1")], token := some "t1", isAuthenticated := true }
        { tokenEntry := some "t1", userEntry := some uA }
        (ApiError.response 503 none)
      = ({ user := some [("id", "1")], token := some "t1", isAuthenticated := true },
         { tokenEntry := some "t1", userEntry := some uA }) ∧
    CtxApi.onResponseError { tokenEntry := some "t1", userEntry := some uA }
        (ApiError.response 503 none)
      = { tokenEntry := some "t1", userEntry := some uA } :=
  (c6_only_401_invalidates
      { user := some [("id", "1")], token := some "t1", isAuthenticated := true }
      { tokenEntry := some "t1", userEntry := some uA }).2.2.2.2 503 none (by decide)

/-- C8 counterexample: the claim states that whenever a token is present
in the Session Store the dispatched request carries the bearer header; the
interceptor tests truthiness, so a present empty-string token gets no
Authorization header, and the claimed statement is false. -/
theorem c8_present_token_counterexample :
    ¬ (∀ (t : String) (c : ReqConfig),
        Obj.get (attachAuthHeader (some t) c).headers "Authorization"
          = some ("Bearer " ++ t)) := by
  intro h
  have h2 := h "" { headers := [] }
  simp [attachAuthHeader, Obj.get] at h2

/-- C8 amended: the request interceptor is a pure function of the config;
when the stored token is non-empty the result carries the header
Authorization: Bearer followed by the token, with every other header
unchanged; when the token is absent or empty the config passes through
with no Authorization header added. -/
theorem c8_attach_bearer_header (c : ReqConfig) :
    (∀ t : String, t ≠ "" →
      Obj.get (attachAuthHeader (some t) c).headers "Authorization" = some ("Bearer " ++ t) ∧
      ∀ q : String, q ≠ "Authorization" →
        Obj.get (attachAuthHeader (some t) c).headers q = Obj.get c.headers q) ∧
    attachAuthHeader none c = c ∧
    attachAuthHeader (some "") c = c := by
  refine ⟨fun t ht => ⟨?_, fun q hq => ?_⟩, rfl, rfl⟩
  · simp [attachAuthHeader, ht, Obj.assign, Obj.get, List.reverse_append]
  · have hne : (("Authorization" : String) == q) = false :=
      beq_eq_false_iff_ne.mpr (fun hc => hq hc.symm)
    simp only [attachAuthHeader]
    rw [if_neg ht]
    simp [Obj.get, Obj.assign, List.reverse_append, List.find?_cons, hne]

/-- Witness for C8 at a concrete non-empty token, a concrete config and a
concrete other header. -/
theorem c8_attach_bearer_header_witness :
    Obj.get (attachAuthHeader (some "tok123") { headers := [("Accept", "json")] }).headers
      "Authorization" = some ("Bearer " ++ "tok123") ∧
    Obj.get (attachAuthHeader (some "tok123") { headers := [("Accept", "json")] }).headers
      "Accept" = Obj.get ([("Accept", "json")] : Obj) "Accept" :=
  ⟨((c8_attach_bearer_header { headers := [("Accept", "json")] }).1 "tok123" (by decide)).1,
   ((c8_attach_bearer_header { headers := [("Accept", "json")] }).1 "tok123" (by decide)).2
     "Accept" (by decide)⟩

/-- C10: evaluated at an authenticated state, logout removes both
persisted entries and clears the token cell, but the cached user snapshot
survives: the context setter named setUser is updateUserData, whose
truthiness guard ignores the null argument — so the post-logout state is
not the fully cleared state the claim describes. -/
theorem c10_logout_retains_user_snapshot :
    UseAuth.logout { token := some "t1", user := some uA }
        { tokenEntry := some "t1", userEntry := some uA }
      = ({ token := none, user := some uA }, { tokenEntry := none, userEntry := none }) ∧
    ({ token := none, user := some uA } : CtxState).user ≠ none := by
  constructor
  · rfl
  · simp

/-- C3: in every steady post-initialization state of either
implementation, a truthy token implies a present user snapshot: the two
are set and cleared together by the lifecycle operations. -/
theorem c3_steady_state_invariant :
    (∀ p : CtxState × SessionStore, CtxReachable p → steadyInvCtx p.1) ∧
    (∀ q : AuthState × SessionStore, ReduxSteady q → steadyInvRedux q.1) := by
  constructor
  · intro p hp
    induction hp with
    | boot st o =>
        cases hT : jsTruthy (AuthContext.load st).token with
        | false => simp [steadyInvCtx, AuthContext.initializeAuth, hT]
        | true =>
            cases o with
            | success u =>
                simp only [AuthContext.initializeAuth, hT]
                simp [steadyInvCtx, AuthContext.updateUserData]
            | failure =>
                simp only [AuthContext.initializeAuth, hT]
                simp [steadyInvCtx, jsTruthy]
    | doLogin p t u hrec ih =>
        simp [UseAuth.login, AuthContext.updateUserData, steadyInvCtx]
    | doLogout p hrec ih =>
        simp [UseAuth.logout, AuthContext.updateUserData, steadyInvCtx, jsTruthy]
    | doUpdate p d o hrec ih =>
        cases hU : p.1.user with
        | none =>
            have he : UseAuth.updateProfile p.1 p.2 d o = (p.1, p.2) := by
              unfold UseAuth.updateProfile
              rw [hU]
            rw [he]
            exact ih
        | some u =>
            cases o with
            | success fresh =>
                simp [UseAuth.updateProfile, hU, AuthContext.updateUserData, steadyInvCtx]
            | failure =>
                simp [UseAuth.updateProfile, hU, AuthContext.updateUserData, steadyInvCtx]
    | doRefresh p o hrec ih =>
        cases o with
        | success u =>
            simp [UseAuth.refreshUserData, AuthContext.updateUserData, steadyInvCtx]
        | failure =>
            exact ih
    | onError p e hrec ih =>
        exact ih
  · intro q hq
    induction hq with
    | didLogin s st a =>
        simp [AuthSlice.loginUser, steadyInvRedux]
    | didLogout s st =>
        simp [AuthSlice.logoutUser, steadyInvRedux, jsTruthy]
    | didUpdate s st payload =>
        simp [AuthSlice.updateUser, steadyInvRedux]
    | onError p e hrec ih =>
        cases e with
        | response n d =>
            by_cases hn : n = 401
            · simp [ReduxApi.onResponseError, hn, AuthSlice.logoutUser, steadyInvRedux, jsTruthy]
            · have he : ReduxApi.onResponseError p.1 p.2 (ApiError.response n d) = (p.1, p.2) := by
                simp [ReduxApi.onResponseError, hn]
              rw [he]
              exact ih
        | transport => exact ih
        | setup => exact ih

/-- Witness for C3: the invariant holds at the concrete state reached by
booting from empty storage with a failing fetch and then logging in. -/
theorem c3_steady_state_invariant_witness :
    steadyInvCtx (UseAuth.login
      (AuthContext.initializeAuth
        (AuthContext.load { tokenEntry := none, userEntry := none })
        { tokenEntry := none, userEntry := none } FetchOutcome.failure).1
      (AuthContext.initializeAuth
        (AuthContext.load { tokenEntry := none, userEntry := none })
        { tokenEntry := none, userEntry := none } FetchOutcome.failure).2
      "t1" uA).1 :=
  c3_steady_state_invariant.1 _
    (CtxReachable.doLogin _ "t1" uA
      (CtxReachable.boot { tokenEntry := none, userEntry := none } FetchOutcome.failure))

end ChopWeb
